import Mathlib

/-
  Verification of the gant-log logging package (src/log.go).

  The package is embedded shallowly: the severity constants, the two text
  templates, the record type, the core mustLog function and the public
  entry points (Debug, Info, Warn, Error, Fatal, Trace) are translated
  into pure Lean functions.  Mutable globals (the threshold, the selected
  template) and external collaborators (the clock, runtime.Caller, the
  output writer) become explicit parameters; the observable behaviour of a
  call is an explicit trace of effects (lock acquisition and release,
  caller lookup, bytes written, process exit) together with an outcome
  (normal return, panic, or process exit).
-/

namespace GantLog

/-- Severity rank constants, from the iota block in src/log.go. -/
def levelDebug : Int := 0

/-- Severity rank of Info. -/
def levelInfo : Int := 1

/-- Severity rank of Warn. -/
def levelWarn : Int := 2

/-- Severity rank of Error. -/
def levelError : Int := 3

/-- Severity rank of Fatal. -/
def levelFatal : Int := 4

/-- The global severity threshold `logLevel` of src/log.go: an unexported
package variable initialized to `levelDebug`.  No statement in the package
assigns to it, so it is embedded as a constant. -/
def logLevel : Int := levelDebug

/-- LogRecord from src/log.go: the ephemeral value rendered by the template.
`ID` is the correlation identifier (never populated by any entry point),
`Level` the color-decorated severity tag, `Message` the expanded message,
`Filename` and `LineNo` the call site. -/
structure LogRecord where
  ID : String
  Level : String
  Message : String
  Filename : String
  LineNo : Int
  deriving DecidableEq, Repr

/-- One element of a parsed text template: a literal, a field reference, or
one of the two injected functions Now (with its layout argument) and
EndLine. -/
inductive TemplateItem where
  | lit (s : String)
  | now (layout : String)
  | levelField
  | idField
  | filenameField
  | lineNoField
  | messageField
  | endLine
  deriving DecidableEq, Repr

/-- Render one template item against a record.  The clock stands for the
collaborator behind the injected Now function: it maps a layout string to
the current time formatted by that layout. -/
def renderItem (clock : String → String) (r : LogRecord) : TemplateItem → String
  | TemplateItem.lit s => s
  | TemplateItem.now layout => clock layout
  | TemplateItem.levelField => r.Level
  | TemplateItem.idField => r.ID
  | TemplateItem.filenameField => r.Filename
  | TemplateItem.lineNoField => toString r.LineNo
  | TemplateItem.messageField => r.Message
  | TemplateItem.endLine => "\n"

/-- Execute a parsed template on a record: concatenate the rendered items.
This embeds template.Execute for the two templates of src/log.go, which
contain only literals, field references, and the Now/EndLine functions. -/
def executeTemplate (clock : String → String) (tmpl : List TemplateItem)
    (r : LogRecord) : String :=
  String.join (tmpl.map (renderItem clock r))

/-- The verbose template of getQLogger (debugLogFormat in src/log.go),
parsed into items. -/
def debugLogFormat : List TemplateItem :=
  [TemplateItem.lit "[IIGService] ",
   TemplateItem.now "2006/01/02 15:04:05",
   TemplateItem.lit " ",
   TemplateItem.levelField,
   TemplateItem.lit " ▶ ",
   TemplateItem.idField,
   TemplateItem.lit " ",
   TemplateItem.filenameField,
   TemplateItem.lit ":",
   TemplateItem.lineNoField,
   TemplateItem.lit " ",
   TemplateItem.messageField,
   TemplateItem.endLine]

/-- The concise template of getQLogger (relaseLogFormat in src/log.go,
keeping the source spelling), parsed into items.  It is the verbose
template without the filename:lineno segment. -/
def relaseLogFormat : List TemplateItem :=
  [TemplateItem.lit "[IIGService] ",
   TemplateItem.now "2006/01/02 15:04:05",
   TemplateItem.lit " ",
   TemplateItem.levelField,
   TemplateItem.lit " ▶ ",
   TemplateItem.idField,
   TemplateItem.lit " ",
   TemplateItem.messageField,
   TemplateItem.endLine]

/-- Modelled from the spec: the decorate operation of the color-rendering
collaborator (the colors package of this repository, which is not under
src/): it wraps text in terminal escape sequences for one of five named
colors and weights. -/
def decorate (code : String) (s : String) : String :=
  "\x1b[" ++ code ++ "m" ++ s ++ "\x1b[0m"

/-- Modelled from the spec: colors.CyanBold of the colors package. -/
def CyanBold : String → String := decorate "1;36"

/-- Modelled from the spec: colors.GreenBold of the colors package. -/
def GreenBold : String → String := decorate "1;32"

/-- Modelled from the spec: colors.YellowBold of the colors package. -/
def YellowBold : String → String := decorate "1;33"

/-- Modelled from the spec: colors.RedBold of the colors package. -/
def RedBold : String → String := decorate "1;31"

/-- Modelled from the spec: colors.MagentaBold of the colors package. -/
def MagentaBold : String → String := decorate "1;35"

/-- Modelled from the spec: the wrap operation of the color-rendering
collaborator (colors.NewColorWriter): it returns a sink around the given
underlying writer, passing bytes through unchanged on non-terminal
targets.  Writers are identified by a natural number. -/
structure ColorWriter where
  base : Nat
  deriving DecidableEq, Repr

/-- Modelled from the spec: colors.NewColorWriter wraps a raw writer. -/
def NewColorWriter (w : Nat) : ColorWriter :=
  ColorWriter.mk w

/-- QLogger from src/log.go: the singleton holds the current output target
(the mutex is represented by the lock events in the effect trace). -/
structure QLogger where
  output : ColorWriter
  deriving DecidableEq, Repr

/-- SetOutput from src/log.go: under the lock, replace the output target
with a freshly color-wrapped version of the given writer. -/
def SetOutput (_l : QLogger) (w : Nat) : QLogger :=
  QLogger.mk (NewColorWriter w)

/-- Worker for stripColors: drop terminal escape sequences from a character
list.  The flag records whether we are inside an escape sequence, which
ends at the letter m. -/
def stripColorsGo : Bool → List Char → List Char
  | _, [] => []
  | false, c :: rest =>
      if c = '\x1b' then stripColorsGo true rest
      else c :: stripColorsGo false rest
  | true, c :: rest =>
      if c = 'm' then stripColorsGo false rest
      else stripColorsGo true rest

/-- Remove terminal color escape sequences from a string, so that rendered
output can be compared with color codes set aside. -/
def stripColors (s : String) : String :=
  String.mk (stripColorsGo false s.toList)

/-- Worker for sprintf over character lists. -/
def sprintfGo : List Char → List String → List Char
  | [], _ => []
  | '%' :: 's' :: rest, a :: args => a.toList ++ sprintfGo rest args
  | '%' :: 's' :: rest, [] => ("%!s(MISSING)").toList ++ sprintfGo rest []
  | '%' :: '%' :: rest, args => '%' :: sprintfGo rest args
  | c :: rest, args => c :: sprintfGo rest args

/-- Modelled from the spec: printf-style substitution (the fmt.Sprintf
collaborator), covering the verb forms the package passes to it: the
string verb and the escaped percent sign; arguments are strings. -/
def sprintf (format : String) (args : List String) : String :=
  String.mk (sprintfGo format.toList args)

/-- Drop leading occurrences of a character from a list. -/
def dropLeading (c : Char) : List Char → List Char
  | [] => []
  | x :: xs => if x = c then dropLeading c xs else x :: xs

/-- Take characters up to (excluding) the first slash. -/
def takeUntilSlash : List Char → List Char
  | [] => []
  | x :: xs => if x = '/' then [] else x :: takeUntilSlash xs

/-- Modelled from the spec: filepath.Base on slash-separated paths: the
empty path gives a dot, trailing slashes are dropped, everything after the
final slash remains, and an all-slash path gives a single slash. -/
def filepathBase (path : String) : String :=
  if path = "" then "."
  else
    let rev := dropLeading '/' path.toList.reverse
    if rev = [] then "/"
    else String.mk (takeUntilSlash rev).reverse

/-- getLevelTag from src/log.go: map a severity rank to its five-character
display tag; any other value panics with errInvalidLogLevel, embedded here
as none. -/
def getLevelTag (level : Int) : Option String :=
  if level = levelDebug then some "DEBUG"
  else if level = levelInfo then some "INFO "
  else if level = levelWarn then some "WARN "
  else if level = levelError then some "ERROR"
  else if level = levelFatal then some "FATAL"
  else none

/-- getColorLevel from src/log.go: map a severity rank to its
color-decorated tag via getLevelTag; any other value panics with
errInvalidLogLevel, embedded here as none. -/
def getColorLevel (level : Int) : Option String :=
  if level = levelDebug then Option.map CyanBold (getLevelTag level)
  else if level = levelInfo then Option.map GreenBold (getLevelTag level)
  else if level = levelWarn then Option.map YellowBold (getLevelTag level)
  else if level = levelError then Option.map RedBold (getLevelTag level)
  else if level = levelFatal then Option.map MagentaBold (getLevelTag level)
  else none

/-- One observable effect of a logging call: mutex acquisition or release,
a runtime.Caller lookup at a given depth, bytes written to the output, or
a process exit with a status code. -/
inductive Effect where
  | lockAcquired
  | lockReleased
  | callerLookup (depth : Nat)
  | write (s : String)
  | exitProc (code : Int)
  deriving DecidableEq, Repr

/-- How a call finished: normal return, a propagated panic, or process
termination with the given status code. -/
inductive Outcome where
  | ok
  | panicked (message : String)
  | exited (code : Int)
  deriving DecidableEq, Repr

/-- Whether an outcome is a propagated panic. -/
def Outcome.isPanic : Outcome → Bool
  | Outcome.panicked _ => true
  | _ => false

/-- The runtime.Caller collaborator: a caller function maps a call depth to
either the source file and line of that frame, or none when stack
introspection fails. -/
def CallerFn : Type := Nat → Option (String × Int)

/-- The file and line used by mustLog: the caller result when introspection
succeeds, the sentinels otherwise (src/log.go lines 153-157). -/
def resolveCaller (caller : CallerFn) (calldepth : Nat) : String × Int :=
  match caller calldepth with
  | some fl => fl
  | none => ("???", 0)

/-- The LogRecord built by mustLog (src/log.go lines 159-164): empty ID,
the given decorated tag, the expanded message, the base name of the caller
file, and the caller line. -/
def buildRecord (tag : String) (message : String) (args : List String)
    (fl : String × Int) : LogRecord :=
  LogRecord.mk "" tag (sprintf message args) (filepathBase fl.1) fl.2

/-- mustLog from src/log.go: return immediately below the threshold,
otherwise lock, look up the caller (falling back to the sentinels), build
the record, render it through the template into the output, panicking on
an invalid level or on a render/write failure; the deferred unlock runs on
every exit path.  The mutable globals logLevel and logRecordTemplate, the
clock behind Now, the caller collaborator, and whether writing to the
current output fails, are passed explicitly. -/
def mustLog (curLogLevel : Int) (tmpl : List TemplateItem)
    (clock : String → String) (caller : CallerFn) (writerFails : Bool)
    (level : Int) (calldepth : Nat) (message : String) (args : List String) :
    List Effect × Outcome :=
  if level < curLogLevel then
    ([], Outcome.ok)
  else
    match getColorLevel level with
    | none =>
        ([Effect.lockAcquired, Effect.callerLookup calldepth,
          Effect.lockReleased],
         Outcome.panicked "logger: invalid log level")
    | some tag =>
        let record := buildRecord tag message args
          (resolveCaller caller calldepth)
        if writerFails then
          ([Effect.lockAcquired, Effect.callerLookup calldepth,
            Effect.lockReleased],
           Outcome.panicked "logger: write error")
        else
          ([Effect.lockAcquired, Effect.callerLookup calldepth,
            Effect.write (executeTemplate clock tmpl record),
            Effect.lockReleased],
           Outcome.ok)

/-- Debug entry point from src/log.go: call mustLog at levelDebug with
call depth 2, but only when the process-wide debug-mode flag is set;
otherwise do nothing at all. -/
def Debug (debugMode : Bool) (curLogLevel : Int) (tmpl : List TemplateItem)
    (clock : String → String) (caller : CallerFn) (writerFails : Bool)
    (format : String) (v : List String) : List Effect × Outcome :=
  if debugMode then
    mustLog curLogLevel tmpl clock caller writerFails levelDebug 2 format v
  else
    ([], Outcome.ok)

/-- Info entry point from src/log.go: mustLog at levelInfo, depth 2. -/
def Info (curLogLevel : Int) (tmpl : List TemplateItem)
    (clock : String → String) (caller : CallerFn) (writerFails : Bool)
    (format : String) (v : List String) : List Effect × Outcome :=
  mustLog curLogLevel tmpl clock caller writerFails levelInfo 2 format v

/-- Warn entry point from src/log.go: mustLog at levelWarn, depth 2. -/
def Warn (curLogLevel : Int) (tmpl : List TemplateItem)
    (clock : String → String) (caller : CallerFn) (writerFails : Bool)
    (format : String) (v : List String) : List Effect × Outcome :=
  mustLog curLogLevel tmpl clock caller writerFails levelWarn 2 format v

/-- Error entry point from src/log.go: mustLog at levelError, depth 2. -/
def Error (curLogLevel : Int) (tmpl : List TemplateItem)
    (clock : String → String) (caller : CallerFn) (writerFails : Bool)
    (format : String) (v : List String) : List Effect × Outcome :=
  mustLog curLogLevel tmpl clock caller writerFails levelError 2 format v

/-- Fatal entry point from src/log.go: mustLog at levelFatal, depth 2,
followed by os.Exit(-1) when mustLog returns normally (a panic inside
mustLog propagates before the exit statement is reached). -/
def Fatal (curLogLevel : Int) (tmpl : List TemplateItem)
    (clock : String → String) (caller : CallerFn) (writerFails : Bool)
    (format : String) (v : List String) : List Effect × Outcome :=
  match mustLog curLogLevel tmpl clock caller writerFails levelFatal 2 format v with
  | (es, Outcome.ok) => (es ++ [Effect.exitProc (-1)], Outcome.exited (-1))
  | (es, o) => (es, o)

/-- Trace from src/log.go: write a fixed banner and three magenta-bold
decorated lines (URL, status code, result body) straight to standard
output through a fresh color writer.  It reads none of the logger state,
so the singleton is not among its arguments; the returned list is the
sequence of strings written to standard output. -/
def Trace (url : String) (code : Int) (result : String) : List String :=
  ["=================================\n",
   MagentaBold ("   URL: " ++ url ++ "\n"),
   MagentaBold ("  CODE: " ++ toString code ++ "\n"),
   MagentaBold ("RESULT: " ++ result ++ "\n")]

/-- The once/instance globals of src/log.go: whether once.Do has run, the
selected template, and the singleton instance. -/
structure GlobalState where
  onceDone : Bool
  logRecordTemplate : Option (List TemplateItem)
  inst : Option QLogger
  deriving DecidableEq, Repr

/-- The package state before the first getQLogger call. -/
def initialGlobalState : GlobalState :=
  GlobalState.mk false none none

/-- getQLogger from src/log.go: under once.Do, select the template
(verbose when debug mode is enabled, concise otherwise), wrap the given
writer in a color writer and store it as the singleton; on any later call
the once body is skipped and the stored instance is returned unchanged.
Returns the updated globals together with the returned instance. -/
def getQLogger (debugMode : Bool) (w : Nat) (g : GlobalState) :
    GlobalState × Option QLogger :=
  if g.onceDone then
    (g, g.inst)
  else
    let tmpl := if debugMode then debugLogFormat else relaseLogFormat
    let inst := QLogger.mk (NewColorWriter w)
    (GlobalState.mk true (some tmpl) (some inst), some inst)

/-- A clock fixed at 2024-01-02 03:04:05: for the layout used by the
templates it returns that instant formatted by the layout. -/
def fixedClock : String → String :=
  fun _ => "2024/01/02 03:04:05"

/-- A caller collaborator for which stack introspection always fails. -/
def noCaller : CallerFn :=
  fun _ => none

/-- A caller collaborator reporting a fixed call site. -/
def sampleCaller : CallerFn :=
  fun _ => some ("/home/user/app/main.go", 42)

/-- Helper: above the threshold, the effect trace of mustLog is never
empty (the lock is always acquired first). -/
theorem mustLog_trace_ne_nil (curLogLevel : Int) (tmpl : List TemplateItem)
    (clock : String → String) (caller : CallerFn) (writerFails : Bool)
    (level : Int) (calldepth : Nat) (message : String) (args : List String)
    (h : ¬ level < curLogLevel) :
    (mustLog curLogLevel tmpl clock caller writerFails level calldepth
      message args).1 ≠ [] := by
  unfold mustLog
  rw [if_neg h]
  cases hgc : getColorLevel level <;> simp [hgc]
  split <;> simp

/-- C2: Threshold gating: when the level rank is strictly below the
current global threshold, mustLog returns immediately with an empty effect
trace — no lock acquisition, no caller lookup, no write. -/
theorem c2_threshold_gating (curLogLevel : Int) (tmpl : List TemplateItem)
    (clock : String → String) (caller : CallerFn) (writerFails : Bool)
    (level : Int) (calldepth : Nat) (message : String) (args : List String)
    (h : level < curLogLevel) :
    mustLog curLogLevel tmpl clock caller writerFails level calldepth
      message args = ([], Outcome.ok) := by
  unfold mustLog
  rw [if_pos h]

/-- Witness for C2 at a concrete input: threshold Info, level Debug. -/
theorem c2_threshold_gating_witness :
    levelDebug < levelInfo ∧
    mustLog levelInfo relaseLogFormat fixedClock noCaller false levelDebug 2
      "m" [] = ([], Outcome.ok) :=
  ⟨by decide,
   c2_threshold_gating levelInfo relaseLogFormat fixedClock noCaller false
     levelDebug 2 "m" [] (by decide)⟩

/-- C4: Debug gating: with the debug-mode flag disabled, the Debug entry
point produces no effects at all — no write, no lock, no call into
mustLog — whatever the current threshold and the other collaborators. -/
theorem c4_debug_gating (curLogLevel : Int) (tmpl : List TemplateItem)
    (clock : String → String) (caller : CallerFn) (writerFails : Bool)
    (format : String) (v : List String) :
    Debug false curLogLevel tmpl clock caller writerFails format v
      = ([], Outcome.ok) :=
  rfl

/-- C8: Level tag lookup: getLevelTag maps the five severities to the
equal-width five-character tags, getColorLevel maps them to the
corresponding color-decorated forms, and both fail (none, the embedded
panic) exactly on values outside the five severities. -/
theorem c8_level_tags :
    getLevelTag levelDebug = some "DEBUG"
  ∧ getLevelTag levelInfo = some "INFO "
  ∧ getLevelTag levelWarn = some "WARN "
  ∧ getLevelTag levelError = some "ERROR"
  ∧ getLevelTag levelFatal = some "FATAL"
  ∧ getColorLevel levelDebug = some (CyanBold "DEBUG")
  ∧ getColorLevel levelInfo = some (GreenBold "INFO ")
  ∧ getColorLevel levelWarn = some (YellowBold "WARN ")
  ∧ getColorLevel levelError = some (RedBold "ERROR")
  ∧ getColorLevel levelFatal = some (MagentaBold "FATAL")
  ∧ (∀ l : Int, (getLevelTag l).map String.length
      = (getLevelTag l).map (fun _ => 5))
  ∧ (∀ l : Int, (getLevelTag l = none ↔ (l < levelDebug ∨ levelFatal < l)))
  ∧ (∀ l : Int, (getColorLevel l = none ↔ (l < levelDebug ∨ levelFatal < l))) := by
  refine ⟨by decide, by decide, by decide, by decide, by decide,
    by decide, by decide, by decide, by decide, by decide, ?_, ?_, ?_⟩
  · intro l
    unfold getLevelTag
    split_ifs <;> rfl
  · intro l
    unfold getLevelTag
    unfold levelDebug levelInfo levelWarn levelError levelFatal
    split_ifs <;> (simp_all; try omega)
  · intro l
    unfold getColorLevel getLevelTag
    unfold levelDebug levelInfo levelWarn levelError levelFatal
    split_ifs <;> (simp_all; try omega)

/-- C1: Round-trip format: an Info call for format string user-s-logged-in
with argument alice, against the concise template, the threshold at the
logLevel default, and the clock fixed at 2024-01-02 03:04:05, acquires the
lock, looks up the caller at depth 2, writes exactly one string and
releases the lock; with color codes stripped the written string is exactly
the expected record, the correlation ID of the record is empty, and the
concise output carries no filename:lineno segment (it does not depend on
the caller lookup result at all). -/
theorem c1_round_trip_format (caller : CallerFn) :
    Info logLevel relaseLogFormat fixedClock caller false
        "user %s logged in" ["alice"]
      = ([Effect.lockAcquired, Effect.callerLookup 2,
          Effect.write (executeTemplate fixedClock relaseLogFormat
            (buildRecord (GreenBold "INFO ") "user %s logged in" ["alice"]
              (resolveCaller caller 2))),
          Effect.lockReleased], Outcome.ok)
  ∧ stripColors (executeTemplate fixedClock relaseLogFormat
        (buildRecord (GreenBold "INFO ") "user %s logged in" ["alice"]
          (resolveCaller caller 2)))
      = "[IIGService] 2024/01/02 03:04:05 INFO  ▶  user alice logged in\n"
  ∧ (buildRecord (GreenBold "INFO ") "user %s logged in" ["alice"]
        (resolveCaller caller 2)).ID = "" := by
  refine ⟨?_, ?_, rfl⟩
  · unfold Info mustLog
    rw [if_neg (by decide)]
    rfl
  · rcases hc : caller 2 with _ | ⟨f, n⟩ <;>
      simp [resolveCaller, hc, buildRecord, executeTemplate, relaseLogFormat,
        renderItem, stripColors, GreenBold, decorate, String.join] <;>
      decide

/-- C3: Singleton initialization and template stability: the first
getQLogger call initializes the globals, selecting the verbose template in
debug mode and the concise template otherwise and storing a color-wrapped
writer as the singleton; any call after initialization returns the state
and stored instance unchanged, for any writer and any debug flag; and the
concise template renders every record independently of its Filename and
LineNo fields, so no call through it ever emits a filename:lineno
segment. -/
theorem c3_singleton_init :
    (∀ (debugMode : Bool) (w : Nat) (g : GlobalState), g.onceDone = false →
      getQLogger debugMode w g
        = (GlobalState.mk true
            (some (if debugMode then debugLogFormat else relaseLogFormat))
            (some (QLogger.mk (NewColorWriter w))),
           some (QLogger.mk (NewColorWriter w))))
  ∧ (∀ (debugMode : Bool) (w : Nat) (g : GlobalState), g.onceDone = true →
      getQLogger debugMode w g = (g, g.inst))
  ∧ (∀ (dm dm2 : Bool) (w w2 : Nat) (g : GlobalState),
      getQLogger dm2 w2 (getQLogger dm w g).1
        = ((getQLogger dm w g).1, (getQLogger dm w g).1.inst))
  ∧ (∀ (clock : String → String) (r : LogRecord) (f : String) (n : Int),
      executeTemplate clock relaseLogFormat
          (LogRecord.mk r.ID r.Level r.Message f n)
        = executeTemplate clock relaseLogFormat r) := by
  refine ⟨?_, ?_, ?_, ?_⟩
  · intro debugMode w g h
    unfold getQLogger
    rw [h]
    rfl
  · intro debugMode w g h
    unfold getQLogger
    rw [h]
    rfl
  · intro dm dm2 w w2 g
    unfold getQLogger
    by_cases h : g.onceDone = true
    · simp [h]
    · simp at h
      simp [h]
  · intro clock r f n
    simp [executeTemplate, relaseLogFormat, renderItem]

/-- Witness for C3 at concrete inputs: starting from the uninitialized
globals, the first call initializes in concise mode, and a second call
with a different writer and the debug flag set returns the same state and
instance unchanged. -/
theorem c3_singleton_init_witness :
    initialGlobalState.onceDone = false
  ∧ getQLogger false 1 initialGlobalState
      = (GlobalState.mk true (some relaseLogFormat)
          (some (QLogger.mk (NewColorWriter 1))),
         some (QLogger.mk (NewColorWriter 1)))
  ∧ (GlobalState.mk true (some relaseLogFormat)
      (some (QLogger.mk (NewColorWriter 1)))).onceDone = true
  ∧ getQLogger true 2 (GlobalState.mk true (some relaseLogFormat)
      (some (QLogger.mk (NewColorWriter 1))))
      = (GlobalState.mk true (some relaseLogFormat)
          (some (QLogger.mk (NewColorWriter 1))),
         some (QLogger.mk (NewColorWriter 1))) := by
  refine ⟨rfl, ?_, rfl, ?_⟩
  · have h := c3_singleton_init.1 false 1 initialGlobalState rfl
    simpa using h
  · have h := c3_singleton_init.2.1 true 2
      (GlobalState.mk true (some relaseLogFormat)
        (some (QLogger.mk (NewColorWriter 1)))) rfl
    simpa using h

/-- C5: Fatal exit behavior: with a threshold that admits the fatal level
and a writer that accepts the record, Fatal produces the trace lock,
caller lookup, write of the fully rendered record, unlock, and only then
the process exit with status -1, which is non-zero; the write event
strictly precedes the exit event in the trace. -/
theorem c5_fatal_exit (curLogLevel : Int) (tmpl : List TemplateItem)
    (clock : String → String) (caller : CallerFn)
    (format : String) (v : List String)
    (h : curLogLevel ≤ levelFatal) :
    Fatal curLogLevel tmpl clock caller false format v
      = ([Effect.lockAcquired, Effect.callerLookup 2,
          Effect.write (executeTemplate clock tmpl
            (buildRecord (MagentaBold "FATAL") format v
              (resolveCaller caller 2))),
          Effect.lockReleased, Effect.exitProc (-1)],
         Outcome.exited (-1))
    ∧ (-1 : Int) ≠ 0 := by
  refine ⟨?_, by decide⟩
  have hlt : ¬ (levelFatal < curLogLevel) := by
    unfold levelFatal at h ⊢
    omega
  unfold Fatal mustLog
  rw [if_neg hlt]
  rfl

/-- Witness for C5 at concrete inputs: the default threshold, the concise
template, the fixed clock and a fixed caller. -/
theorem c5_fatal_exit_witness :
    levelDebug ≤ levelFatal
  ∧ Fatal levelDebug relaseLogFormat fixedClock sampleCaller false
      "boom" []
      = ([Effect.lockAcquired, Effect.callerLookup 2,
          Effect.write
            "[IIGService] 2024/01/02 03:04:05 \x1b[1;35mFATAL\x1b[0m ▶  boom\n",
          Effect.lockReleased, Effect.exitProc (-1)],
         Outcome.exited (-1)) := by
  refine ⟨by decide, ?_⟩
  have h := (c5_fatal_exit levelDebug relaseLogFormat fixedClock sampleCaller
    "boom" [] (by decide)).1
  rw [h]
  rfl

/-- C6: Trace helper independence: for every url, status code and result
body, Trace writes exactly the fixed banner followed by the three
magenta-bold decorated lines — four writes in all — to standard output;
its output is a function of its three arguments alone (no threshold,
template, logger instance or lock appears in it), and it still produces
those four writes when the threshold is set above every severity, a
setting at which each leveled entry point is suppressed to an empty
trace. -/
theorem c6_trace_independent (url : String) (code : Int) (result : String)
    (tmpl : List TemplateItem) (clock : String → String) (caller : CallerFn)
    (writerFails : Bool) (format : String) (v : List String) :
    Trace url code result
      = ["=================================\n",
         MagentaBold ("   URL: " ++ url ++ "\n"),
         MagentaBold ("  CODE: " ++ toString code ++ "\n"),
         MagentaBold ("RESULT: " ++ result ++ "\n")]
  ∧ (Trace url code result).length = 4
  ∧ Debug true (levelFatal + 1) tmpl clock caller writerFails format v
      = ([], Outcome.ok)
  ∧ Info (levelFatal + 1) tmpl clock caller writerFails format v
      = ([], Outcome.ok)
  ∧ Warn (levelFatal + 1) tmpl clock caller writerFails format v
      = ([], Outcome.ok)
  ∧ Error (levelFatal + 1) tmpl clock caller writerFails format v
      = ([], Outcome.ok)
  ∧ (Fatal (levelFatal + 1) tmpl clock caller writerFails format v).1
      = [Effect.exitProc (-1)] := by
  exact ⟨rfl, rfl, rfl, rfl, rfl, rfl, rfl⟩

/-- C7: Render/write fault policy: above the threshold, a failing writer
makes mustLog end in a panic with the trace lock acquisition, caller
lookup, lock release — the failure is propagated, not swallowed, and the
deferred unlock still runs; moreover on every exit path of mustLog, for
any level and any writer, the trace is either empty (the threshold early
return, before the lock) or begins with the lock acquisition and ends
with the lock release. -/
theorem c7_render_write_fault (curLogLevel : Int) (tmpl : List TemplateItem)
    (clock : String → String) (caller : CallerFn)
    (level : Int) (calldepth : Nat) (message : String) (args : List String)
    (h : ¬ level < curLogLevel) :
    ((mustLog curLogLevel tmpl clock caller true level calldepth
        message args).1
      = [Effect.lockAcquired, Effect.callerLookup calldepth,
         Effect.lockReleased])
  ∧ ((mustLog curLogLevel tmpl clock caller true level calldepth
        message args).2).isPanic = true
  ∧ (∀ (lvl : Int) (writerFails : Bool),
      (mustLog curLogLevel tmpl clock caller writerFails lvl calldepth
        message args).1 = []
      ∨ ((mustLog curLogLevel tmpl clock caller writerFails lvl calldepth
            message args).1.head? = some Effect.lockAcquired
        ∧ (mustLog curLogLevel tmpl clock caller writerFails lvl calldepth
            message args).1.getLast? = some Effect.lockReleased)) := by
  refine ⟨?_, ?_, ?_⟩
  · unfold mustLog
    rw [if_neg h]
    cases hgc : getColorLevel level <;> simp [hgc]
  · unfold mustLog
    rw [if_neg h]
    cases hgc : getColorLevel level <;> simp [hgc, Outcome.isPanic]
  · intro lvl writerFails
    unfold mustLog
    by_cases hlt : lvl < curLogLevel
    · left
      rw [if_pos hlt]
    · right
      rw [if_neg hlt]
      cases hgc : getColorLevel lvl <;> simp [hgc]
      split <;> simp

/-- Witness for C7 at a concrete input: level Info against the default
threshold with a failing writer panics after releasing the lock. -/
theorem c7_render_write_fault_witness :
    ¬ (levelInfo < levelDebug)
  ∧ (mustLog levelDebug relaseLogFormat fixedClock noCaller true levelInfo 2
      "m" []).1
      = [Effect.lockAcquired, Effect.callerLookup 2, Effect.lockReleased]
  ∧ ((mustLog levelDebug relaseLogFormat fixedClock noCaller true levelInfo 2
      "m" []).2).isPanic = true := by
  have h := c7_render_write_fault levelDebug relaseLogFormat fixedClock
    noCaller levelInfo 2 "m" [] (by decide)
  exact ⟨by decide, h.1, h.2.1⟩

/-- C9: Caller-location fallback: above the threshold, with a valid level
and a writer that accepts the record, a failed caller lookup is not an
error — mustLog builds the record with the sentinel filename and line 0
and writes the rendered record normally; a successful lookup yields the
base name of the reported file and its line. -/
theorem c9_caller_fallback (curLogLevel : Int) (tmpl : List TemplateItem)
    (clock : String → String) (caller : CallerFn)
    (level : Int) (calldepth : Nat) (message : String) (args : List String)
    (tag : String)
    (hthr : ¬ level < curLogLevel) (htag : getColorLevel level = some tag) :
    (caller calldepth = none →
      mustLog curLogLevel tmpl clock caller false level calldepth message args
        = ([Effect.lockAcquired, Effect.callerLookup calldepth,
            Effect.write (executeTemplate clock tmpl
              (LogRecord.mk "" tag (sprintf message args) "???" 0)),
            Effect.lockReleased], Outcome.ok))
  ∧ (∀ (file : String) (line : Int),
      caller calldepth = some (file, line) →
      mustLog curLogLevel tmpl clock caller false level calldepth message args
        = ([Effect.lockAcquired, Effect.callerLookup calldepth,
            Effect.write (executeTemplate clock tmpl
              (LogRecord.mk "" tag (sprintf message args)
                (filepathBase file) line)),
            Effect.lockReleased], Outcome.ok)) := by
  constructor
  · intro hc
    unfold mustLog
    rw [if_neg hthr, htag]
    simp [resolveCaller, hc, buildRecord]
    rfl
  · intro file line hc
    unfold mustLog
    rw [if_neg hthr, htag]
    simp [resolveCaller, hc, buildRecord]

/-- Witness for C9 at concrete inputs: a failing caller yields the
sentinel record, a fixed caller yields the base name main.go and line 42,
rendered through the verbose template. -/
theorem c9_caller_fallback_witness :
    ¬ (levelInfo < levelDebug)
  ∧ getColorLevel levelInfo = some (GreenBold "INFO ")
  ∧ noCaller 2 = none
  ∧ mustLog levelDebug debugLogFormat fixedClock noCaller false levelInfo 2
      "m" []
      = ([Effect.lockAcquired, Effect.callerLookup 2,
          Effect.write
            "[IIGService] 2024/01/02 03:04:05 \x1b[1;32mINFO \x1b[0m ▶  ???:0 m\n",
          Effect.lockReleased], Outcome.ok)
  ∧ sampleCaller 2 = some ("/home/user/app/main.go", 42)
  ∧ filepathBase "/home/user/app/main.go" = "main.go"
  ∧ mustLog levelDebug debugLogFormat fixedClock sampleCaller false levelInfo 2
      "m" []
      = ([Effect.lockAcquired, Effect.callerLookup 2,
          Effect.write
            "[IIGService] 2024/01/02 03:04:05 \x1b[1;32mINFO \x1b[0m ▶  main.go:42 m\n",
          Effect.lockReleased], Outcome.ok) := by
  refine ⟨by decide, by decide, rfl, ?_, rfl, by decide, ?_⟩
  · have h := (c9_caller_fallback levelDebug debugLogFormat fixedClock
      noCaller levelInfo 2 "m" [] (GreenBold "INFO ") (by decide)
      (by decide)).1 rfl
    rw [h]
    rfl
  · have h := (c9_caller_fallback levelDebug debugLogFormat fixedClock
      sampleCaller levelInfo 2 "m" [] (GreenBold "INFO ") (by decide)
      (by decide)).2 "/home/user/app/main.go" 42 rfl
    rw [h]
    rfl

/-- C10: The global threshold logLevel is initialized to levelDebug and
never assigned, so no severity at or above levelDebug is ever below it:
the early-return filter of mustLog is unreachable from the public entry
points, every leveled call that reaches mustLog acquires the lock (a
non-empty trace), and the only suppression the public surface exhibits is
the debug-mode gate of Debug. -/
theorem c10_threshold_unreachable :
    logLevel = levelDebug
  ∧ (∀ level : Int, levelDebug ≤ level → ¬ (level < logLevel))
  ∧ (∀ (tmpl : List TemplateItem) (clock : String → String)
      (caller : CallerFn) (writerFails : Bool) (format : String)
      (v : List String),
        (Info logLevel tmpl clock caller writerFails format v).1 ≠ []
      ∧ (Warn logLevel tmpl clock caller writerFails format v).1 ≠ []
      ∧ (Error logLevel tmpl clock caller writerFails format v).1 ≠ []
      ∧ (Fatal logLevel tmpl clock caller writerFails format v).1 ≠ []
      ∧ (Debug true logLevel tmpl clock caller writerFails format v).1 ≠ []
      ∧ Debug false logLevel tmpl clock caller writerFails format v
          = ([], Outcome.ok)) := by
  refine ⟨rfl, ?_, ?_⟩
  · intro level h
    unfold levelDebug at h
    unfold logLevel levelDebug
    omega
  · intro tmpl clock caller writerFails format v
    refine ⟨?_, ?_, ?_, ?_, ?_, rfl⟩
    · exact mustLog_trace_ne_nil logLevel tmpl clock caller writerFails
        levelInfo 2 format v (by decide)
    · exact mustLog_trace_ne_nil logLevel tmpl clock caller writerFails
        levelWarn 2 format v (by decide)
    · exact mustLog_trace_ne_nil logLevel tmpl clock caller writerFails
        levelError 2 format v (by decide)
    · have h := mustLog_trace_ne_nil logLevel tmpl clock caller writerFails
        levelFatal 2 format v (by decide)
      unfold Fatal
      split
      · simp
      · rename_i es o heq
        intro hes
        apply h
        rw [heq]
        exact hes
    · exact mustLog_trace_ne_nil logLevel tmpl clock caller writerFails
        levelDebug 2 format v (by decide)

/-- Witness for C10 at a concrete input: levelDebug is at or above itself
and is not below the global threshold. -/
theorem c10_threshold_unreachable_witness :
    levelDebug ≤ levelDebug ∧ ¬ (levelDebug < logLevel) :=
  ⟨by decide, c10_threshold_unreachable.2.1 levelDebug (by decide)⟩

end GantLog
